import Mathlib

/-!
Shallow embedding of the Budgee budget-tracker retrieval-augmented query
pipeline (`backend/fingpt_queries.py`, `backend/query_filter.py`,
`backend/rag_query.py`, `backend/vector_manager.py`).

External collaborators (the spaCy NLP model, the `dateparser` library, the
Pinecone vector store, and the Hugging Face HTTP endpoint) are modelled as
explicit parameters bundled in a `Collab` record; the repository's own logic
is translated function by function.  String primitives (`lower`, `strip`,
`join`, substring membership, single-character `replace`) are implemented
here by structural recursion over the character list so that every
definition evaluates by kernel reduction.
-/

/-- Python's `sub in s` substring test on a character list: true when `pat`
occurs as a contiguous sub-sequence of `s`. -/
def subOccurs (pat : List Char) : List Char → Bool
  | [] => pat.isEmpty
  | c :: rest => pat.isPrefixOf (c :: rest) || subOccurs pat rest

/-- Python's `sub in s` on strings. -/
def containsSub (s sub : String) : Bool := subOccurs sub.toList s.toList

/-- Python's `any(word in s for word in kws)`. -/
def containsAnyKw (s : String) (kws : List String) : Bool :=
  kws.any (fun w => containsSub s w)

/-- Python's `str.lower` (per-character lowering). -/
def pyLower (s : String) : String := ⟨s.data.map Char.toLower⟩

/-- Python's `str.strip()`: drop whitespace from both ends. -/
def pyStrip (s : String) : String :=
  ⟨((s.data.dropWhile Char.isWhitespace).reverse.dropWhile Char.isWhitespace).reverse⟩

/-- Python's `sep.join(parts)`. -/
def joinSep (sep : String) : List String → String
  | [] => ""
  | [x] => x
  | x :: xs => x ++ sep ++ joinSep sep xs

/-- Python's `str.replace(pat, rep)` for a single-character pattern (the
source only replaces the one-character pattern `"Z"`). -/
def replaceChar (s : String) (c : Char) (rep : String) : String :=
  ⟨s.data.foldr (fun ch acc => if ch = c then rep.data ++ acc else ch :: acc) []⟩

/-- Two-digit zero padding used by `%d` and the cents part of `:.2f`. -/
def pad2 (n : Nat) : String := (if n < 10 then "0" else "") ++ toString n

/-- Python's `f"{x:.2f}"` on an exact rational amount: rounding to two
decimal places (half away from zero on the exact value; Python rounds the
nearest binary double, which agrees away from exact half-cent ties). -/
def fmt2 (q : Rat) : String :=
  let c : Int := Rat.floor (q * 100 + 1 / 2)
  let n := c.natAbs
  (if c < 0 then "-" else "") ++ toString (n / 100) ++ "." ++ pad2 (n % 100)

/-- Python's `str(x)` on a float-valued field, used only inside generated
vector ids (`f"{user}_{date}_{amount}_{category}"`); integral values render
as Python floats do (`500.0`), non-integral ones fall back to the exact
fraction (ids are never inspected by any claim). -/
def pyFloatRepr (q : Rat) : String :=
  if q.den = 1 then toString q.num ++ ".0"
  else toString q.num ++ "/" ++ toString q.den

/-- Month names for `strftime('%B %d, %Y')`. -/
def monthName : Nat → String
  | 1 => "January" | 2 => "February" | 3 => "March" | 4 => "April"
  | 5 => "May" | 6 => "June" | 7 => "July" | 8 => "August"
  | 9 => "September" | 10 => "October" | 11 => "November" | 12 => "December"
  | _ => ""

/-- Gregorian leap-year test. -/
def isLeap (y : Nat) : Bool := y % 4 = 0 && (y % 100 ≠ 0 || y % 400 = 0)

/-- Days in a month, for `datetime.fromisoformat`'s validity check. -/
def daysInMonth (y m : Nat) : Nat :=
  if m = 2 then (if isLeap y then 29 else 28)
  else if m = 4 || m = 6 || m = 9 || m = 11 then 30
  else 31

/-- Numeric value of a decimal digit character. -/
def digVal (c : Char) : Option Nat :=
  if c.isDigit then some (c.toNat - 48) else none

/-- Check that a list of characters is a plausible `HH:MM[:SS]` time.
Approximates the time-part validation of `datetime.fromisoformat`
(fractional seconds and offsets are not modelled; no claim exercises
date strings carrying a time component). -/
def validTimePart : List Char → Bool
  | [h1, h2, ':', m1, m2] =>
    (digVal h1).isSome && (digVal h2).isSome && (digVal m1).isSome && (digVal m2).isSome
  | [h1, h2, ':', m1, m2, ':', s1, s2] =>
    (digVal h1).isSome && (digVal h2).isSome && (digVal m1).isSome && (digVal m2).isSome
      && (digVal s1).isSome && (digVal s2).isSome
  | _ => false

/-- Build a calendar date from `YYYY-MM-DD` digit characters, validating
ranges the way `datetime.fromisoformat` does. -/
def mkDate (y1 y2 y3 y4 m1 m2 d1 d2 : Char) : Option (Nat × Nat × Nat) :=
  match digVal y1, digVal y2, digVal y3, digVal y4, digVal m1, digVal m2,
      digVal d1, digVal d2 with
  | some a, some b, some c, some d, some e, some f, some g, some h =>
    let y := a * 1000 + b * 100 + c * 10 + d
    let mo := e * 10 + f
    let da := g * 10 + h
    if 1 ≤ mo && mo ≤ 12 && 1 ≤ da && da ≤ daysInMonth y mo then some (y, mo, da)
    else none
  | _, _, _, _, _, _, _, _ => none

/-- Model of `datetime.fromisoformat` restricted to the shapes the
application produces: a plain `YYYY-MM-DD` date, optionally followed by a
`T` or space separator and an `HH:MM[:SS]` time. -/
def parseIsoDate (s : String) : Option (Nat × Nat × Nat) :=
  match s.data with
  | [y1, y2, y3, y4, '-', m1, m2, '-', d1, d2] => mkDate y1 y2 y3 y4 m1 m2 d1 d2
  | y1 :: y2 :: y3 :: y4 :: '-' :: m1 :: m2 :: '-' :: d1 :: d2 :: sep :: rest =>
    if (sep = 'T' || sep = ' ') && validTimePart rest then
      mkDate y1 y2 y3 y4 m1 m2 d1 d2
    else none
  | _ => none

/-- The date-formatting snippet duplicated at `fingpt_queries.py` lines
183–191 and 349–357: `date.replace('Z', '+00:00')` is parsed with
`fromisoformat` and rendered as `'%B %d, %Y'`; on a parse failure the raw
string is used (`except: formatted_date = str(date)`).  Dates are modelled
as strings (the `isinstance(date, str)` branch). -/
def formatExpenseDate (date : String) : String :=
  match parseIsoDate (replaceChar date 'Z' "+00:00") with
  | some (y, m, d) => monthName m ++ " " ++ pad2 d ++ ", " ++ toString y
  | none => date

/-! ## Data model -/

/-- An expense mapping as received by the backend.  Field values are
modelled well-typed (`amount` as an exact rational standing for the Python
float); a `none` field models an absent key.  Dates are carried as strings
(the ISO-8601 string case of the source). -/
structure ExpenseDict where
  user_id : Option String := none
  amount : Option Rat := none
  category : Option String := none
  description : Option String := none
  date : Option String := none
  expense_id : Option String := none
deriving DecidableEq

/-- A batch element before validation: either a mapping or something else
(the `isinstance(expense, dict)` check). -/
inductive PyExpense where
  | dict (d : ExpenseDict)
  | notDict
deriving DecidableEq

/-- An expense after `query_fingpt`'s validation: all five required fields
present. -/
structure ValidExpense where
  user_id : String
  amount : Rat
  category : String
  description : String
  date : String
  expense_id : Option String := none
deriving DecidableEq

/-- Metadata of a match returned by the vector store; `none` models an
absent key (`meta.get(...)` returning `None`). -/
structure MatchMeta where
  text : Option String := none
  chunk_text : Option String := none
  description : Option String := none
  user_id : Option String := none
deriving DecidableEq

/-- A retrieved match: `match.get('metadata', {})` with all keys absent is
the all-`none` metadata record. -/
structure Match where
  metadata : MatchMeta := {}
deriving DecidableEq

/-- The filter expression `{"user_id": {"$eq": user_id}}`, optionally
extended with `{"date": {"$gte": start, "$lte": end}}`, that
`query_user_expenses` passes to the store. -/
structure StoreFilter where
  userEq : String
  dateRange : Option (String × String) := none
deriving DecidableEq

/-- Record of one `index.query(...)` call observed at the store boundary. -/
structure StoreQueryCall where
  queryText : String
  topK : Nat
  filter : StoreFilter
deriving DecidableEq

/-- Metadata attached to an upserted vector
(`vector_manager.build_docs_from_expenses`). -/
structure UpsertMeta where
  user_id : String
  date : String
  category : String
  amount : Rat
  text : String
deriving DecidableEq

/-- One record sent to `index.upsert` (`{"id": ..., "values": ...,
"metadata": ...}`; the raw document text stands in for the vector). -/
structure UpsertVector where
  id : String
  values : String
  metadata : UpsertMeta
deriving DecidableEq

/-- Outcome of an `index.query` call: a match list, or an exception
(`TypeError` triggers the source's legacy-API retry; anything else is
logged and degraded to an empty result). -/
inductive StoreQueryOutcome where
  | ok (ms : List Match)
  | typeError
  | otherError
deriving DecidableEq

/-- Outcome of an `index.upsert` call. -/
inductive StoreUpsertOutcome where
  | ok
  | typeError
  | otherError
deriving DecidableEq

/-- Behaviour of a provisioned Pinecone index (both methods present; the
source's `hasattr` guards are vacuous for it). -/
structure Store where
  query : String → Nat → StoreFilter → StoreQueryOutcome
  upsert : List UpsertVector → StoreUpsertOutcome

/-- Shape of the JSON body of a 200 response from the generative endpoint:
unparseable, a non-empty list whose first element has `generated_text`, a
non-empty list lacking it, or any other shape. -/
inductive JsonShape where
  | invalid
  | listGen (generated_text : String)
  | listNoGen
  | notList
deriving DecidableEq

/-- Outcome of the single HTTP request issued by `call_fingpt_api`. -/
inductive HfOutcome where
  | resp (status : Nat) (text : String) (body : JsonShape)
  | timeout
  | connErr
  | exc (msg : String)
deriving DecidableEq

/-- External collaborators of the pipeline: the spaCy date/keyword
extraction (exception-free by the source's own `try/except` wrappers), the
`dateparser.parse` behaviour on a single string, the Hugging Face token
configuration and endpoint, and the optional store handle. -/
structure Collab where
  /-- spaCy DATE entities of the (already lower-cased) text. -/
  dateEntities : String → List String
  /-- spaCy noun/proper-noun lemmas of the (already lower-cased) text. -/
  keywordsOf : String → List String
  /-- what `dateparser.parse` makes of a single date string, already
  rendered through `strftime('%Y-%m-%d')`; `none` models an unparseable
  string (`parse` returning `None`). -/
  parseDateStr : String → Option String
  /-- whether `HF_API_TOKEN` is configured and differs from the
  placeholder. -/
  hfTokenOk : Bool
  /-- response of the generative endpoint to a prompt. -/
  backend : String → HfOutcome
  /-- the shared Pinecone index handle; `none` when provisioning failed. -/
  store : Option Store

/-! ## `backend/query_filter.py` -/

/-- The filter mapping built by `extract_filters_from_query`: always a
`user_id`; `start_date`/`end_date` present together when a date range was
parsed; `keywords` set only when non-empty (an empty list models the
absent key). -/
structure FilterSet where
  user_id : String
  start_date : Option String := none
  end_date : Option String := none
  keywords : List String := []
deriving DecidableEq

/-- Embedding of `extract_date_entities`: spaCy NER over the lower-cased
text; the surrounding `try/except` swallows library failures, so the
oracle is a total function. -/
def extract_date_entities (c : Collab) (text : String) : List String :=
  c.dateEntities (pyLower text)

/-- Embedding of `extract_keywords` (same exception-swallowing wrapper). -/
def extract_keywords (c : Collab) (text : String) : List String :=
  c.keywordsOf (pyLower text)

/-- Embedding of `parse_date_range`.  With no entity it returns `None`;
with exactly one it parses it (`start_iso`, with `end_iso` defaulting to
`start_iso`); with two or more the source evaluates
`dateparser.parse(dates)` — passing the whole *list* where `dateparser`
requires a string — which raises `TypeError` (the docstring's comment
says "second as end", i.e. `dates[1]` was intended). -/
def parse_date_range (pd : String → Option String) (dates : List String) :
    Except String (Option (String × String)) :=
  match dates with
  | [] => .ok none
  | [d] =>
    match pd d with
    | some startIso => .ok (some (startIso, startIso))
    | none => .ok none
  | _ :: _ :: _ => .error "Input type must be str"

/-- Embedding of `extract_filters_from_query`.  The date-entity and
keyword extractions never raise, but `parse_date_range` is *not* wrapped
in a handler, so its `TypeError` propagates to the caller. -/
def extract_filters_from_query (c : Collab) (query user_id : String) :
    Except String FilterSet :=
  match parse_date_range c.parseDateStr (extract_date_entities c query) with
  | .error e => .error e
  | .ok dr =>
    let base : FilterSet :=
      match dr with
      | some (s, e) => { user_id := user_id, start_date := some s, end_date := some e }
      | none => { user_id := user_id }
    .ok { base with keywords := extract_keywords c query }

/-! ## `backend/vector_manager.py` -/

/-- Embedding of `build_docs_from_expenses`: per-expense document text,
id (`expense_id` if truthy, otherwise the composite key) and metadata. -/
def build_docs_from_expenses (expenses : List ValidExpense) :
    List String × List String × List UpsertMeta :=
  let texts := expenses.map (fun e =>
    "Date: " ++ e.date ++ ", Amount: â‚¹" ++ fmt2 e.amount ++ ", Category: "
      ++ e.category ++ ", Description: " ++ e.description)
  let ids := expenses.map (fun e =>
    match e.expense_id with
    | some i => if i = "" then e.user_id ++ "_" ++ e.date ++ "_" ++ pyFloatRepr e.amount ++ "_" ++ e.category else i
    | none => e.user_id ++ "_" ++ e.date ++ "_" ++ pyFloatRepr e.amount ++ "_" ++ e.category)
  let metadata := expenses.map (fun e =>
    UpsertMeta.mk e.user_id e.date e.category e.amount
      ("Date: " ++ e.date ++ ", Amount: â‚¹" ++ fmt2 e.amount ++ ", Category: "
        ++ e.category ++ ", Description: " ++ e.description))
  (texts, ids, metadata)

/-- The vector records assembled inside `upsert_expenses_to_pinecone`
(`{"id": idx, "values": text, "metadata": meta}` — the raw text stands in
for the embedding). -/
def upsertVectors (expenses : List ValidExpense) : List UpsertVector :=
  let (texts, ids, metadata) := build_docs_from_expenses expenses
  (texts.zip (ids.zip metadata)).map (fun p => UpsertVector.mk p.2.1 p.1 p.2.2)

/-- Embedding of `upsert_expenses_to_pinecone`.  Returns the list of
batches actually handed to `index.upsert` (empty when nothing was sent).
Control flow of the source: empty batch → return; unavailable index →
return (note: *before* the user check); mixed `user_id`s → raise
`ValueError`; then every store-side failure is caught and only logged —
a `TypeError` from the new-API call form triggers one identical legacy
retry whose own failure is also swallowed. -/
def upsert_expenses_to_pinecone (c : Collab) (expenses : List ValidExpense) :
    Except String (List (List UpsertVector)) :=
  if expenses = [] then .ok []
  else
    match c.store with
    | none => .ok []
    | some st =>
      if ((expenses.map (fun e => e.user_id)).dedup.length ≠ 1) then
        .error "All expenses to upsert must belong to the same user_id."
      else
        let vectors := upsertVectors expenses
        match st.upsert vectors with
        | .ok => .ok [vectors]
        | .typeError =>
          match st.upsert vectors with
          | _ => .ok [vectors, vectors]
        | .otherError => .ok [vectors]

/-! ## `backend/rag_query.py` -/

/-- Key of the retrieval cache: the `(user_id, query, top_k)` triple (the
module-global index handle, also part of `cachetools`' key, is the same
object on every call and is dropped from the model). -/
abbrev CacheKey := String × String × Nat

/-- One entry of the `TTLCache(maxsize=100, ttl=300)`: its key, the cached
match list, and its expiry instant (insertion time + 300). -/
structure CacheEntry where
  key : CacheKey
  value : List Match
  expire : Nat
deriving DecidableEq

/-- State of the retrieval cache, oldest entry first. -/
structure TTLCacheSt where
  entries : List CacheEntry
deriving DecidableEq

/-- Cache lookup at time `now`: an entry is served only while
`now < expire` (an expired entry is treated as missing). -/
def cacheGet (cache : TTLCacheSt) (now : Nat) (k : CacheKey) :
    Option (List Match) :=
  (cache.entries.find? (fun e => decide (e.key = k ∧ now < e.expire))).map
    (fun e => e.value)

/-- The expiry sweep `TTLCache` performs before an insertion. -/
def cachePurge (entries : List CacheEntry) (now : Nat) : List CacheEntry :=
  entries.filter (fun e => decide (now < e.expire))

/-- Cache insertion at time `now`: purge expired entries, evict from the
head (oldest first) down to capacity 99 if full, then append the fresh
entry with a 300-second lifetime (capacity 100). -/
def cacheSet (cache : TTLCacheSt) (now : Nat) (k : CacheKey)
    (v : List Match) : TTLCacheSt :=
  let purged := cachePurge cache.entries now
  let room := if purged.length ≥ 100 then purged.drop (purged.length - 99) else purged
  ⟨room ++ [CacheEntry.mk k v (now + 300)]⟩

/-- The filter expression the body of `query_user_expenses` assembles:
exact `user_id` match, plus the date range when both bounds are present
and truthy (`if start_date and end_date`). -/
def coreFilter (user_id : String) (filters : FilterSet) : StoreFilter :=
  { userEq := user_id,
    dateRange :=
      match filters.start_date, filters.end_date with
      | some s, some e => if s ≠ "" ∧ e ≠ "" then some (s, e) else none
      | _, _ => none }

/-- The query text the body sends: the raw query, extended with the
extracted keywords when present (`query + " " + " ".join(keywords)`). -/
def coreQueryText (query : String) (filters : FilterSet) : String :=
  if filters.keywords ≠ [] then query ++ " " ++ joinSep " " filters.keywords
  else query

/-- The body of `query_user_expenses` (the function under the `@cached`
decorator).  Order of the source: the `index is None` guard first, then
`extract_filters_from_query` (whose `TypeError` propagates — it sits
before the internal `try`), then the store query with the legacy-API
retry on `TypeError` and the catch-all returning `[]`.  Returns the match
list together with the `index.query` calls issued. -/
def query_user_expenses_core (c : Collab) (user_id query : String)
    (top_k : Nat) : Except String (List Match × List StoreQueryCall) :=
  match c.store with
  | none => .ok ([], [])
  | some st =>
    match extract_filters_from_query c query user_id with
    | .error e => .error e
    | .ok filters =>
      let query_text := coreQueryText query filters
      let filter_criteria := coreFilter user_id filters
      let call : StoreQueryCall := StoreQueryCall.mk query_text top_k filter_criteria
      match st.query query_text top_k filter_criteria with
      | .ok ms => .ok (ms, [call])
      | .typeError =>
        match st.query query_text top_k filter_criteria with
        | .ok ms => .ok (ms, [call, call])
        | _ => .ok ([], [call, call])
      | .otherError => .ok ([], [call])

/-- Result of one retrieval through the cache: the value (or the
propagated extraction error), the updated cache, and the store calls. -/
structure RetrOut where
  result : Except String (List Match)
  cache : TTLCacheSt
  calls : List StoreQueryCall

/-- Embedding of the `@cached(query_cache)`-decorated
`query_user_expenses`: serve an unexpired entry for the key without
touching the store; otherwise run the body and cache a successful
result. -/
def query_user_expenses (c : Collab) (now : Nat) (cache : TTLCacheSt)
    (user_id query : String) (top_k : Nat) : RetrOut :=
  match cacheGet cache now (user_id, query, top_k) with
  | some v => ⟨.ok v, cache, []⟩
  | none =>
    match query_user_expenses_core c user_id query top_k with
    | .ok (ms, calls) => ⟨.ok ms, cacheSet cache now (user_id, query, top_k) ms, calls⟩
    | .error e => ⟨.error e, cache, []⟩

/-- The sentinel of `format_context_from_results`. -/
def noDataSentinel : String := "No relevant expense data found for your query."

/-- Python's `a or b` chain over the three metadata keys: the first
non-`None`, non-empty string wins; otherwise `""`. -/
def pickText (m : MatchMeta) : String :=
  let orStr : Option String → String → String := fun o b =>
    match o with
    | some s => if s = "" then b else s
    | none => b
  orStr m.text (orStr m.chunk_text (orStr m.description ""))

/-- The usable snippet of one match, if any (`if text:` keeps only truthy
selections). -/
def pickLine (m : Match) : Option String :=
  let t := pickText m.metadata
  if t = "" then none else some t

/-- Embedding of `format_context_from_results`. -/
def format_context_from_results (results : List Match) : String :=
  if results = [] then noDataSentinel
  else
    let context_lines := results.filterMap pickLine
    if context_lines = [] then noDataSentinel
    else joinSep "\n" context_lines

/-! ## `backend/fingpt_queries.py` -/

/-- Embedding of `build_prompt`: the fixed instructional template with the
context and question embedded verbatim. -/
def build_prompt (question context : String) : String :=
  "\n**Role:** You are a financial analysis AI specialized in expense tracking and budgeting.\n\n**Objective:** Analyze user spending data and provide accurate, simple-to-understand answers strictly using the given context.\n\n**Context:** \n"
    ++ context
    ++ "\n\n**Instructions:**\n**Instruction 1:** Answer only based on context.\n**Instruction 2:** Explain in simple language for non-experts.\n**Instruction 3:** Use bullet points if suitable.\n**Instruction 4:** If context is insufficient, state \"Not enough information to answer.\"\n**Instruction 5:** Provide your output in 3 short sections:  \n   - Direct Answer  \n   - Supporting Details  \n   - Actionable Recommendations  \n\n**Notes:**\n- Do not hallucinate information.\n- Be concise and actionable.\n- Explain financial terms briefly if used. \n- Use bullet points for clarity.  \n\nQuestion:\n"
    ++ question ++ "\n"

/-- Embedding of `call_fingpt_api`: the credential pre-check, the single
HTTP request, and the mapping of every failure mode to a degraded
human-readable message.  Total — it never raises. -/
def call_fingpt_api (tokenOk : Bool) (send : String → HfOutcome)
    (prompt : String) : String :=
  if tokenOk then
    match send prompt with
    | .resp status text body =>
      if status ≠ 200 then
        if status = 401 then
          "I apologize, but there's an authentication issue with the AI service. Please check the API configuration."
        else if status = 403 then
          (if containsSub (pyLower text) "permissions" || containsSub (pyLower text) "inference" then
            "I apologize, but the AI service requires additional permissions. Please ensure your Hugging Face token has inference permissions enabled."
          else
            "I apologize, but access to the AI service is forbidden. Please check your API configuration.")
        else if status = 404 then
          "I apologize, but the AI model is not available. The system will use local analysis instead."
        else if status = 503 then
          "I apologize, but the AI service is currently unavailable. Please try again in a few minutes."
        else
          "I apologize, but there was an error with the AI service (Status: " ++ toString status ++ "). Please try again."
      else
        match body with
        | .invalid => "I apologize, but the AI service returned an invalid response. Please try again."
        | .listGen generated_text => pyStrip generated_text
        | .listNoGen => "I apologize, but the AI service returned an unexpected response format. Please try again."
        | .notList => "I apologize, but the AI service returned an unexpected response. Please try again."
    | .timeout => "I apologize, but the AI service is taking too long to respond. Please try again."
    | .connErr => "I apologize, but I cannot connect to the AI service. Please check your internet connection and try again."
    | .exc m => "I apologize, but there was an unexpected error: " ++ m
  else
    "I apologize, but the AI service is not properly configured. Please contact support."

/-- Python-dict accumulation `totals[k] = totals.get(k, 0) + v`, keeping
dict insertion order. -/
def addToTotals (l : List (String × Rat)) (k : String) (v : Rat) :
    List (String × Rat) :=
  match l with
  | [] => [(k, v)]
  | (k', v') :: rest =>
    if k' = k then (k', v' + v) :: rest else (k', v') :: addToTotals rest k v

/-- Statistics `local_expense_analysis` computes before classifying the
question. -/
structure Stats where
  total : Rat
  catTotals : List (String × Rat)
  dateTotals : List (String × Rat)
  biggest : ValidExpense
  topCat : String × Rat

/-- Python's `max(items, key=value)` over the category totals: the first
maximal entry wins ties, as `max` only replaces on a strictly greater
key. -/
def topCatOf : List (String × Rat) → String × Rat
  | [] => ("", 0)
  | c :: cs => cs.foldl (fun b x => if b.2 < x.2 then x else b) c

/-- The statistics block of `local_expense_analysis` (total, per-category
and per-date totals, biggest single expense, top category). -/
def computeStats (e0 : ValidExpense) (rest : List ValidExpense) : Stats :=
  let expenses := e0 :: rest
  let total := (expenses.map (fun e => e.amount)).sum
  let catTotals := expenses.foldl (fun acc e => addToTotals acc e.category e.amount) []
  let dateTotals := expenses.foldl (fun acc e => addToTotals acc e.date e.amount) []
  let biggest := rest.foldl (fun b e => if b.amount < e.amount then e else b) e0
  Stats.mk total catTotals dateTotals biggest (topCatOf catTotals)

/-- The `biggest/highest/largest/most` branch of `local_expense_analysis`. -/
def renderBiggestAnswer (s : Stats) : String :=
  let formatted_date := formatExpenseDate s.biggest.date
  let supporting_details :=
    (if s.biggest.description ≠ "" ∧ pyStrip s.biggest.description ≠ "" then
      ["• Description: " ++ s.biggest.description] else [])
    ++ ["• Date: " ++ formatted_date]
  "Your biggest expense is ₹" ++ fmt2 s.biggest.amount ++ " for " ++ s.biggest.category
    ++ ".\n\nSupporting Details:\n" ++ joinSep "\n" supporting_details
    ++ "\n\nActionable Recommendations:\n• Review if this expense was necessary\n• Consider setting a budget limit for "
    ++ s.biggest.category
    ++ " category\n• Look for ways to reduce similar expenses in the future"

/-- The `total/sum/all` branch of `local_expense_analysis`. -/
def renderTotalAnswer (count : Nat) (s : Stats) : String :=
  "Your total expenses are ₹" ++ fmt2 s.total ++ ".\n\nSupporting Details:\n• Number of expenses: "
    ++ toString count ++ "\n• Top spending category: " ++ s.topCat.1 ++ " (₹"
    ++ fmt2 s.topCat.2 ++ ")\n• Average expense: ₹" ++ fmt2 (s.total / (count : Rat))
    ++ "\n\nActionable Recommendations:\n• Track your spending patterns\n• Set monthly budget goals\n• Focus on reducing expenses in "
    ++ s.topCat.1 ++ " category"

/-- Stable descending insertion by value, matching Python's
`sorted(items, key=value, reverse=True)` (ties keep insertion order). -/
def insertDescByVal (x : String × Rat) : List (String × Rat) → List (String × Rat)
  | [] => [x]
  | y :: ys => if y.2 < x.2 then x :: y :: ys else y :: insertDescByVal x ys

/-- Stable descending sort by value. -/
def sortDescByVal (l : List (String × Rat)) : List (String × Rat) :=
  l.foldl (fun acc x => insertDescByVal x acc) []

/-- The `category/categories` branch of `local_expense_analysis`. -/
def renderCategoryAnswer (s : Stats) : String :=
  let category_breakdown :=
    joinSep "\n" ((sortDescByVal s.catTotals).map (fun p => "• " ++ p.1 ++ ": ₹" ++ fmt2 p.2))
  "Your spending by category:\n\nSupporting Details:\n" ++ category_breakdown
    ++ "\n\nActionable Recommendations:\n• Focus on reducing expenses in " ++ s.topCat.1
    ++ " category\n• Consider setting category-specific budgets\n• Review if all categories are necessary"

/-- The `save/reduce/cut/budget` branch of `local_expense_analysis`. -/
def renderSaveAnswer (s : Stats) : String :=
  "Here are ways to save money based on your spending:\n\nSupporting Details:\n• Your biggest expense category: "
    ++ s.topCat.1 ++ " (₹" ++ fmt2 s.topCat.2 ++ ")\n• Your biggest single expense: ₹"
    ++ fmt2 s.biggest.amount ++ " for " ++ s.biggest.category
    ++ "\n\nActionable Recommendations:\n• Reduce spending in " ++ s.topCat.1
    ++ " category\n• Set a daily/weekly budget limit\n• Track all expenses to identify patterns\n• Consider alternatives for expensive items\n• Review recurring expenses regularly"

/-- The generic summary branch of `local_expense_analysis`. -/
def renderSummaryAnswer (count : Nat) (s : Stats) : String :=
  "Here's a summary of your expenses:\n\nSupporting Details:\n• Total spent: ₹" ++ fmt2 s.total
    ++ "\n• Number of expenses: " ++ toString count ++ "\n• Top category: " ++ s.topCat.1
    ++ " (₹" ++ fmt2 s.topCat.2 ++ ")\n• Biggest expense: ₹" ++ fmt2 s.biggest.amount
    ++ " for " ++ s.biggest.category
    ++ "\n\nActionable Recommendations:\n• Monitor your spending patterns\n• Set realistic budget goals\n• Focus on reducing expenses in "
    ++ s.topCat.1 ++ " category\n• Review expenses regularly to stay on track"

/-- The keyword lists of the intent chain, in the source's branch order. -/
def biggestKws : List String := ["biggest", "highest", "largest", "most"]

/-- Keywords of the `total` branch. -/
def totalKws : List String := ["total", "sum", "all"]

/-- Keywords of the `category` branch. -/
def categoryKws : List String := ["category", "categories"]

/-- Keywords of the `save` branch. -/
def saveKws : List String := ["save", "reduce", "cut", "budget"]

/-- Embedding of `local_expense_analysis`: compute the statistics, then
answer for the first keyword class matching the lower-cased question. -/
def local_expense_analysis (question : String) (expenses : List ValidExpense) : String :=
  match expenses with
  | [] => "No expenses found to analyze."
  | e0 :: rest =>
    let s := computeStats e0 rest
    let question_lower := pyLower question
    if containsAnyKw question_lower biggestKws then renderBiggestAnswer s
    else if containsAnyKw question_lower totalKws then renderTotalAnswer (rest.length + 1) s
    else if containsAnyKw question_lower categoryKws then renderCategoryAnswer s
    else if containsAnyKw question_lower saveKws then renderSaveAnswer s
    else renderSummaryAnswer (rest.length + 1) s

/-- The required-field list of `query_fingpt`'s validation, in source
order, restricted to the fields absent from the mapping. -/
def requiredMissing (d : ExpenseDict) : List String :=
  (if d.user_id.isNone then ["user_id"] else [])
    ++ (if d.amount.isNone then ["amount"] else [])
    ++ (if d.category.isNone then ["category"] else [])
    ++ (if d.description.isNone then ["description"] else [])
    ++ (if d.date.isNone then ["date"] else [])

/-- Python's `repr` of a list of strings, as interpolated into the
missing-fields error message. -/
def pyStrList (l : List String) : String :=
  "[" ++ joinSep ", " (l.map (fun s => "'" ++ s ++ "'")) ++ "]"

/-- The validation loop of `query_fingpt` (steps over
`enumerate(expenses)`): each element must be a mapping containing all
five required fields; the first violation aborts with its message. -/
def validateFrom : Nat → List PyExpense → Except String (List ValidExpense)
  | _, [] => .ok []
  | i, .notDict :: _ => .error ("Invalid expense format at index " ++ toString i)
  | i, .dict d :: rest =>
    match d.user_id, d.amount, d.category, d.description, d.date with
    | some u, some a, some cat, some desc, some dt =>
      (match validateFrom (i + 1) rest with
      | .ok vs => .ok (ValidExpense.mk u a cat desc dt d.expense_id :: vs)
      | .error m => .error m)
    | _, _, _, _, _ =>
      .error ("Invalid expense data: missing " ++ pyStrList (requiredMissing d))

/-- Validation of the whole batch, from index 0. -/
def validate (expenses : List PyExpense) : Except String (List ValidExpense) :=
  validateFrom 0 expenses

/-- The fallback context `query_fingpt` synthesizes from the raw expenses
when the formatted store context is empty or the sentinel: one line per
expense (`Date, Amount, Category[, Description]`), newline-joined. -/
def fallback_context (expenses : List ValidExpense) : String :=
  joinSep "\n" (expenses.map (fun e =>
    joinSep ", " (["Date: " ++ formatExpenseDate e.date,
      "Amount: ₹" ++ fmt2 e.amount,
      "Category: " ++ e.category]
      ++ (if e.description ≠ "" ∧ pyStrip e.description ≠ "" then
            ["Description: " ++ e.description] else []))))

/-- Step 4 of `query_fingpt`: the store context, replaced by the raw-batch
fallback when it is empty or the no-data sentinel. -/
def chooseContext (results : List Match) (expenses : List ValidExpense) : String :=
  let context := format_context_from_results results
  if context = "" ∨ context = noDataSentinel then fallback_context expenses
  else context

/-- The degraded-message indicators `query_fingpt` scans the generative
answer for. -/
def errorIndicators : List String :=
  ["not properly configured", "authentication issue", "permissions",
   "forbidden", "not available", "unavailable", "error with the ai service"]

/-- The substitution test of step 6: any indicator occurring in the
lower-cased answer discards it in favour of the local analysis. -/
def isDegraded (answer : String) : Bool :=
  containsAnyKw (pyLower answer) errorIndicators

/-- Step 6 of `query_fingpt`: call the generative backend on the prompt
built from the chosen context and swap in the local analysis when the
reply carries a degraded-message indicator. -/
def chooseAnswer (c : Collab) (question : String) (expenses : List ValidExpense)
    (context : String) : String :=
  let raw := call_fingpt_api c.hfTokenOk c.backend (build_prompt question context)
  if isDegraded raw then local_expense_analysis question expenses else raw

/-- The success payload of `query_fingpt`
(`{"answer", "context_used", "metadata", "num_chunks"}`). -/
structure QuerySuccess where
  answer : String
  context_used : String
  metadata : FilterSet
  num_chunks : Nat
deriving DecidableEq

/-- Result of `query_fingpt`: a success payload or an `{"error": ...}`
mapping — never a propagated exception. -/
inductive QueryResult where
  | ok (r : QuerySuccess)
  | error (msg : String)
deriving DecidableEq

/-- Whether a result is a success payload. -/
def QueryResult.isOkB : QueryResult → Bool
  | .ok _ => true
  | .error _ => false

/-- The answer carried by a success result, if any. -/
def QueryResult.answerText : QueryResult → Option String
  | .ok r => some r.answer
  | .error _ => none

/-- One full run of the orchestrator: its result plus the observable
effects at the store boundary (updated retrieval cache, `index.query`
calls, `index.upsert` batches) and the match list that was retrieved. -/
structure RunOut where
  result : QueryResult
  cache : TTLCacheSt
  storeQueries : List StoreQueryCall
  upsertCalls : List (List UpsertVector)
  retrieved : List Match

/-- Steps 1–7 of `query_fingpt` after input validation (`user_id` is
`expenses[0]["user_id"]`): upsert (whose `ValueError` aborts with
`Failed to store expenses`), filter extraction (whose error aborts with
`Failed to process query filters`), cached retrieval (whose error aborts
with `Failed to retrieve context`), context choice, prompt, generative
call with local-analysis substitution, and the success payload. -/
def orchestrate (c : Collab) (now : Nat) (cache : TTLCacheSt)
    (question : String) (ves : List ValidExpense) (user_id : String) : RunOut :=
  match upsert_expenses_to_pinecone c ves with
  | .error m => ⟨.error ("Failed to store expenses: " ++ m), cache, [], [], []⟩
  | .ok writes =>
    match extract_filters_from_query c question user_id with
    | .error m => ⟨.error ("Failed to process query filters: " ++ m), cache, [], writes, []⟩
    | .ok filter_data =>
      let o := query_user_expenses c now cache user_id question 5
      match o.result with
      | .error m => ⟨.error ("Failed to retrieve context: " ++ m), o.cache, o.calls, writes, []⟩
      | .ok results =>
        let context := chooseContext results ves
        let answer := chooseAnswer c question ves context
        ⟨.ok (QuerySuccess.mk answer context filter_data results.length),
          o.cache, o.calls, writes, results⟩

/-- Embedding of `query_fingpt`: validation guards (empty question, empty
batch, per-expense structure), then the orchestrated pipeline.  The
`.ok []` validation case cannot occur after the emptiness guard and
re-uses its error. -/
def query_fingpt (c : Collab) (now : Nat) (cache : TTLCacheSt)
    (question : String) (expenses : List PyExpense) : RunOut :=
  if pyStrip question = "" then
    ⟨.error "Question cannot be empty", cache, [], [], []⟩
  else if expenses = [] then
    ⟨.error "No expenses provided to analyze.", cache, [], [], []⟩
  else
    match validate expenses with
    | .error m => ⟨.error m, cache, [], [], []⟩
    | .ok [] => ⟨.error "No expenses provided to analyze.", cache, [], [], []⟩
    | .ok (v0 :: vrest) => orchestrate c now cache question (v0 :: vrest) v0.user_id

/-! ## Helper lemmas -/

/-- A string of positive length is not the empty string. -/
theorem ne_empty_of_len_pos (s : String) (h : 0 < s.length) : s ≠ "" := by
  intro hc
  rw [hc] at h
  exact absurd h (by decide)

/-- Appending on the right preserves positive length. -/
theorem append_len_pos (a b : String) (h : 0 < a.length) : 0 < (a ++ b).length := by
  rw [String.length_append]
  omega

/-- A nonempty string has positive length. -/
theorem len_pos_of_ne_empty (s : String) (h : s ≠ "") : 0 < s.length := by
  cases s with
  | mk data =>
    cases data with
    | nil => exact absurd rfl h
    | cons c cs => simp [String.length]

/-- Appending on the right of a nonempty string stays nonempty. -/
theorem append_ne_empty_left (a b : String) (h : a ≠ "") : a ++ b ≠ "" :=
  ne_empty_of_len_pos _ (append_len_pos _ _ (len_pos_of_ne_empty _ h))

/-- Joining a list whose head is nonempty yields a nonempty string. -/
theorem joinSep_ne_empty (sep x : String) (xs : List String) (hx : x ≠ "") :
    joinSep sep (x :: xs) ≠ "" := by
  cases xs with
  | nil => simpa [joinSep] using hx
  | cons y ys =>
    show x ++ sep ++ joinSep sep (y :: ys) ≠ ""
    exact append_ne_empty_left _ _ (append_ne_empty_left _ _ hx)

/-- Each branch of the local analysis produces a nonempty answer. -/
theorem local_expense_analysis_ne_empty (question : String) (e0 : ValidExpense)
    (rest : List ValidExpense) :
    local_expense_analysis question (e0 :: rest) ≠ "" := by
  simp only [local_expense_analysis]
  split
  · apply ne_empty_of_len_pos
    unfold renderBiggestAnswer
    repeat apply append_len_pos
    decide
  · split
    · apply ne_empty_of_len_pos
      unfold renderTotalAnswer
      repeat apply append_len_pos
      decide
    · split
      · apply ne_empty_of_len_pos
        unfold renderCategoryAnswer
        repeat apply append_len_pos
        decide
      · split
        · apply ne_empty_of_len_pos
          unfold renderSaveAnswer
          repeat apply append_len_pos
          decide
        · apply ne_empty_of_len_pos
          unfold renderSummaryAnswer
          repeat apply append_len_pos
          decide

/-- The chosen context of a nonempty batch is never empty: the store
context is kept only when nonempty (and not the sentinel), and the
fallback rendering of a nonempty batch starts with a `Date:` line. -/
theorem chooseContext_ne_empty (results : List Match) (e0 : ValidExpense)
    (rest : List ValidExpense) :
    chooseContext results (e0 :: rest) ≠ "" := by
  simp only [chooseContext]
  split
  · unfold fallback_context
    apply joinSep_ne_empty
    apply joinSep_ne_empty
    exact append_ne_empty_left _ _ (by decide)
  · next hcond =>
    push_neg at hcond
    exact hcond.1

/-- The chosen answer of a nonempty batch is nonempty provided the client
never hands back an empty string: either the client's reply is kept, or
the local analysis replaces it. -/
theorem chooseAnswer_ne_empty (c : Collab) (question : String)
    (e0 : ValidExpense) (rest : List ValidExpense) (context : String)
    (hA : ∀ p, call_fingpt_api c.hfTokenOk c.backend p ≠ "") :
    chooseAnswer c question (e0 :: rest) context ≠ "" := by
  simp only [chooseAnswer]
  split
  · exact local_expense_analysis_ne_empty question e0 rest
  · exact hA _

/-- A nonempty list whose elements are all equal deduplicates to the
singleton. -/
theorem dedup_eq_singleton_of_all_eq {l : List String} {u : String}
    (hne : l ≠ []) (h : ∀ x ∈ l, x = u) : l.dedup = [u] := by
  induction l with
  | nil => exact absurd rfl hne
  | cons a rest ih =>
    have ha : a = u := h a (List.mem_cons_self a rest)
    cases rest with
    | nil =>
      subst ha
      rw [List.dedup_cons_of_not_mem (List.not_mem_nil a), List.dedup_nil]
    | cons b bs =>
      have hrest : (b :: bs).dedup = [u] :=
        ih (List.cons_ne_nil b bs) (fun x hx => h x (List.mem_cons_of_mem a hx))
      have hb : b = u := h b (List.mem_cons_of_mem a (List.mem_cons_self b bs))
      have hmem : a ∈ b :: bs := by
        rw [ha, ← hb]
        exact List.mem_cons_self b bs
      rw [List.dedup_cons_of_mem hmem, hrest]

/-- On a single-user nonempty batch with an available store, the upsert
routine swallows every store-side failure and reports the batches it
attempted. -/
theorem upsert_ok_of_single_user (c : Collab) (e0 : ValidExpense)
    (rest : List ValidExpense)
    (hu : ∀ v ∈ (e0 :: rest), v.user_id = e0.user_id) :
    ∃ w, upsert_expenses_to_pinecone c (e0 :: rest) = .ok w := by
  simp only [upsert_expenses_to_pinecone]
  rw [if_neg (List.cons_ne_nil e0 rest)]
  cases c.store with
  | none => exact ⟨[], rfl⟩
  | some st =>
    dsimp only
    have hdd : ((e0 :: rest).map (fun e => e.user_id)).dedup = [e0.user_id] := by
      refine dedup_eq_singleton_of_all_eq ?_ ?_
      · simp
      · intro x hx
        obtain ⟨v, hv, hvx⟩ := List.mem_map.mp hx
        rw [← hvx]
        exact hu v hv
    rw [if_neg (by rw [hdd]; simp)]
    cases st.upsert (upsertVectors (e0 :: rest)) <;> exact ⟨_, rfl⟩

/-- With at most one recognised date entity, filter extraction succeeds
and scopes the filter set to the given user. -/
theorem extract_ok_of_few_dates (c : Collab) (query user_id : String)
    (hd : (c.dateEntities (pyLower query)).length ≤ 1) :
    ∃ fs, extract_filters_from_query c query user_id = .ok fs
      ∧ fs.user_id = user_id := by
  simp only [extract_filters_from_query, extract_date_entities, parse_date_range]
  cases hlist : c.dateEntities (pyLower query) with
  | nil => exact ⟨_, rfl, rfl⟩
  | cons d ds =>
    cases ds with
    | nil =>
      dsimp only
      cases c.parseDateStr d with
      | some s => exact ⟨_, rfl, rfl⟩
      | none => exact ⟨_, rfl, rfl⟩
    | cons d2 ds2 =>
      rw [hlist] at hd
      simp at hd

/-- When filter extraction succeeds, the retrieval body always returns a
match list (store absence and every store failure degrade to `[]`), and
every store call it issues is scoped to the given user. -/
theorem core_ok_of_extract_ok (c : Collab) (user_id query : String)
    (top_k : Nat) (fs : FilterSet)
    (hfs : extract_filters_from_query c query user_id = .ok fs) :
    ∃ ms calls, query_user_expenses_core c user_id query top_k = .ok (ms, calls)
      ∧ ∀ call ∈ calls, call.filter.userEq = user_id := by
  simp only [query_user_expenses_core]
  cases c.store with
  | none => exact ⟨[], [], rfl, by intro call h; cases h⟩
  | some st =>
    dsimp only
    rw [hfs]
    dsimp only
    cases st.query (coreQueryText query fs) top_k (coreFilter user_id fs) with
    | ok ms =>
      refine ⟨ms, _, rfl, ?_⟩
      intro call hcall
      rw [List.mem_singleton] at hcall
      rw [hcall]
      rfl
    | typeError =>
      refine ⟨[], _, rfl, ?_⟩
      intro call hcall
      simp only [List.mem_cons, List.not_mem_nil, or_false] at hcall
      rcases hcall with h | h <;> rw [h] <;> rfl
    | otherError =>
      refine ⟨[], _, rfl, ?_⟩
      intro call hcall
      rw [List.mem_singleton] at hcall
      rw [hcall]
      rfl

/-- When filter extraction succeeds, cached retrieval returns a match
list (from the cache or from the body) whose issued store calls are all
scoped to the given user. -/
theorem retrieval_ok_of_extract_ok (c : Collab) (now : Nat)
    (cache : TTLCacheSt) (user_id query : String) (top_k : Nat)
    (fs : FilterSet)
    (hfs : extract_filters_from_query c query user_id = .ok fs) :
    ∃ ms cache2 calls,
      query_user_expenses c now cache user_id query top_k = ⟨.ok ms, cache2, calls⟩
        ∧ ∀ call ∈ calls, call.filter.userEq = user_id := by
  simp only [query_user_expenses]
  cases cacheGet cache now (user_id, query, top_k) with
  | some v => exact ⟨v, cache, [], rfl, by intro call h; cases h⟩
  | none =>
    obtain ⟨ms, calls, hcore, hscope⟩ :=
      core_ok_of_extract_ok c user_id query top_k fs hfs
    rw [hcore]
    exact ⟨ms, _, calls, rfl, hscope⟩

/-- After a successful upsert, extraction and retrieval, the orchestrator
returns the success payload built from the chosen context and answer,
together with the observed effects. -/
theorem orchestrate_ok (c : Collab) (now : Nat) (cache : TTLCacheSt)
    (question : String) (ves : List ValidExpense) (user_id : String)
    (w : List (List UpsertVector)) (fs : FilterSet) (ms : List Match)
    (cache2 : TTLCacheSt) (calls : List StoreQueryCall)
    (hup : upsert_expenses_to_pinecone c ves = .ok w)
    (hfs : extract_filters_from_query c question user_id = .ok fs)
    (hr : query_user_expenses c now cache user_id question 5 = ⟨.ok ms, cache2, calls⟩) :
    orchestrate c now cache question ves user_id =
      ⟨.ok (QuerySuccess.mk (chooseAnswer c question ves (chooseContext ms ves))
          (chooseContext ms ves) fs ms.length), cache2, calls, w, ms⟩ := by
  simp only [orchestrate, hup, hfs, hr]

/-- With the validation guards discharged, `query_fingpt` is the
orchestrated pipeline on the validated batch, scoped to the first
expense's user. -/
theorem query_fingpt_eq_orchestrate (c : Collab) (now : Nat)
    (cache : TTLCacheSt) (question : String) (expenses : List PyExpense)
    (v0 : ValidExpense) (vrest : List ValidExpense)
    (hq : pyStrip question ≠ "") (hne : expenses ≠ [])
    (hval : validate expenses = .ok (v0 :: vrest)) :
    query_fingpt c now cache question expenses
      = orchestrate c now cache question (v0 :: vrest) v0.user_id := by
  simp only [query_fingpt, if_neg hq, if_neg hne, hval]

/-! ## Claim theorems -/

/-- C8: `format_context_from_results` returns the fixed sentinel exactly
when the match list is empty or no match's metadata yields a non-empty
text under the preference order `text`, `chunk_text`, `description`; an
input with usable snippets yields their newline-join, one per match with
usable text.  In particular the empty list maps to the sentinel. -/
theorem format_context_spec (results : List Match) :
    ((results = [] ∨ results.filterMap pickLine = []) →
      format_context_from_results results = noDataSentinel)
    ∧ (results.filterMap pickLine ≠ [] →
      format_context_from_results results = joinSep "\n" (results.filterMap pickLine)) := by
  constructor
  · rintro (h | h)
    · rw [h]
      rfl
    · by_cases hr : results = []
      · rw [hr]
        rfl
      · simp [format_context_from_results, hr, h]
  · intro h
    have hr : results ≠ [] := by
      rintro rfl
      exact h rfl
    simp [format_context_from_results, hr, h]

/-- C8 witness: a single match carrying usable `text` joins to that
snippet; the hypothesis of the second conjunct holds there. -/
theorem format_context_spec_witness :
    ([Match.mk (MatchMeta.mk (some "Date: D, Amount: 5") none none none)].filterMap pickLine ≠ []
      ∧ format_context_from_results [Match.mk (MatchMeta.mk (some "Date: D, Amount: 5") none none none)]
        = joinSep "\n" ([Match.mk (MatchMeta.mk (some "Date: D, Amount: 5") none none none)].filterMap pickLine))
    ∧ format_context_from_results [] = noDataSentinel :=
  ⟨⟨by decide,
    (format_context_spec [Match.mk (MatchMeta.mk (some "Date: D, Amount: 5") none none none)]).2 (by decide)⟩,
    (format_context_spec []).1 (Or.inl rfl)⟩

/-- C7: on a non-empty batch, when the lower-cased question carries a
`total`-class keyword and none of the higher-priority `biggest`-class
keywords, the local analysis renders the total branch, whose rendered
total is the statistics' `total` — the arithmetic sum of the `amount`
fields; the function is a pure function of its arguments, so repeated
identical calls are identical. -/
theorem local_analysis_total_eq_sum (question : String) (e0 : ValidExpense)
    (rest : List ValidExpense)
    (ht : containsAnyKw (pyLower question) totalKws = true)
    (hb : containsAnyKw (pyLower question) biggestKws = false) :
    local_expense_analysis question (e0 :: rest)
        = renderTotalAnswer (rest.length + 1) (computeStats e0 rest)
    ∧ (computeStats e0 rest).total = ((e0 :: rest).map (fun e => e.amount)).sum
    ∧ local_expense_analysis question (e0 :: rest)
        = local_expense_analysis question (e0 :: rest) := by
  refine ⟨?_, rfl, rfl⟩
  simp [local_expense_analysis, ht, hb]

/-- C7 witness: a concrete two-expense batch and a `total` question. -/
theorem local_analysis_total_eq_sum_witness :
    containsAnyKw (pyLower "What is my total spending?") totalKws = true
    ∧ containsAnyKw (pyLower "What is my total spending?") biggestKws = false
    ∧ local_expense_analysis "What is my total spending?"
        [ValidExpense.mk "u1" 500 "Food" "lunch" "2024-01-02" none,
         ValidExpense.mk "u1" 200 "Travel" "" "2024-01-03" none]
      = renderTotalAnswer 2
          (computeStats (ValidExpense.mk "u1" 500 "Food" "lunch" "2024-01-02" none)
            [ValidExpense.mk "u1" 200 "Travel" "" "2024-01-03" none]) :=
  ⟨by decide, by decide,
    (local_analysis_total_eq_sum "What is my total spending?"
      (ValidExpense.mk "u1" 500 "Food" "lunch" "2024-01-02" none)
      [ValidExpense.mk "u1" 200 "Travel" "" "2024-01-03" none]
      (by decide) (by decide)).1⟩

/-- C9: the local analysis answers for the first matching intent class in
the fixed priority order `biggest` > `total` > `category` > `save` >
generic summary; in particular a question carrying a `biggest`-class
keyword gets the biggest-single-expense answer whatever else it
contains. -/
theorem local_analysis_intent_priority (question : String)
    (e0 : ValidExpense) (rest : List ValidExpense) :
    (containsAnyKw (pyLower question) biggestKws = true →
      local_expense_analysis question (e0 :: rest)
        = renderBiggestAnswer (computeStats e0 rest))
    ∧ (containsAnyKw (pyLower question) biggestKws = false →
        containsAnyKw (pyLower question) totalKws = true →
      local_expense_analysis question (e0 :: rest)
        = renderTotalAnswer (rest.length + 1) (computeStats e0 rest))
    ∧ (containsAnyKw (pyLower question) biggestKws = false →
        containsAnyKw (pyLower question) totalKws = false →
        containsAnyKw (pyLower question) categoryKws = true →
      local_expense_analysis question (e0 :: rest)
        = renderCategoryAnswer (computeStats e0 rest))
    ∧ (containsAnyKw (pyLower question) biggestKws = false →
        containsAnyKw (pyLower question) totalKws = false →
        containsAnyKw (pyLower question) categoryKws = false →
        containsAnyKw (pyLower question) saveKws = true →
      local_expense_analysis question (e0 :: rest)
        = renderSaveAnswer (computeStats e0 rest))
    ∧ (containsAnyKw (pyLower question) biggestKws = false →
        containsAnyKw (pyLower question) totalKws = false →
        containsAnyKw (pyLower question) categoryKws = false →
        containsAnyKw (pyLower question) saveKws = false →
      local_expense_analysis question (e0 :: rest)
        = renderSummaryAnswer (rest.length + 1) (computeStats e0 rest)) := by
  refine ⟨?_, ?_, ?_, ?_, ?_⟩
  · intro h1
    simp [local_expense_analysis, h1]
  · intro h1 h2
    simp [local_expense_analysis, h1, h2]
  · intro h1 h2 h3
    simp [local_expense_analysis, h1, h2, h3]
  · intro h1 h2 h3 h4
    simp [local_expense_analysis, h1, h2, h3, h4]
  · intro h1 h2 h3 h4
    simp [local_expense_analysis, h1, h2, h3, h4]

/-- C9 witness: a question containing both `biggest` and `total` receives
the biggest-single-expense answer. -/
theorem local_analysis_intent_priority_witness :
    containsAnyKw (pyLower "biggest part of my total?") biggestKws = true
    ∧ local_expense_analysis "biggest part of my total?"
        [ValidExpense.mk "u1" 500 "Food" "" "2024-01-02" none]
      = renderBiggestAnswer
          (computeStats (ValidExpense.mk "u1" 500 "Food" "" "2024-01-02" none) []) :=
  ⟨by decide,
    (local_analysis_intent_priority "biggest part of my total?"
      (ValidExpense.mk "u1" 500 "Food" "" "2024-01-02" none) []).1 (by decide)⟩

/-- C4: `extract_filters_from_query` is *not* exception-free: when the
recognised date entities number two or more, `parse_date_range` evaluates
`dateparser.parse(dates)` on the whole list and the resulting `TypeError`
propagates out of the extractor (here: a query whose lower-cased text
yields the two DATE entities `january` and `february`). -/
theorem extract_filters_raises_on_two_dates :
    extract_filters_from_query
      (Collab.mk (fun _ => ["january", "february"]) (fun _ => []) (fun _ => none)
        true (fun _ => HfOutcome.timeout) none)
      "compare january and february" "u1"
      = .error "Input type must be str" := by
  rfl

/-- Searching an appended list skips a prefix on which the predicate
fails. -/
theorem find?_append_of_none {α : Type} (p : α → Bool) (l1 l2 : List α)
    (h : ∀ e ∈ l1, p e = false) :
    List.find? p (l1 ++ l2) = List.find? p l2 := by
  induction l1 with
  | nil => rfl
  | cons a rest ih =>
    rw [List.cons_append,
      List.find?_cons_of_neg _ (by rw [h a (List.mem_cons_self a rest)]; exact Bool.false_ne_true)]
    exact ih (fun e he => h e (List.mem_cons_of_mem a he))

/-- A cache miss means no entry for the key is unexpired at that time. -/
theorem cacheGet_none_forall (cache : TTLCacheSt) (t : Nat) (k : CacheKey)
    (hmiss : cacheGet cache t k = none) :
    ∀ e ∈ cache.entries, ¬(e.key = k ∧ t < e.expire) := by
  intro e he
  unfold cacheGet at hmiss
  rw [Option.map_eq_none'] at hmiss
  have := List.find?_eq_none.mp hmiss e he
  simpa using this

/-- A miss persists at any later time (entries only age). -/
theorem cacheGet_none_mono (cache : TTLCacheSt) (t1 t2 : Nat) (k : CacheKey)
    (hmiss : cacheGet cache t1 k = none) (ht : t1 ≤ t2) :
    cacheGet cache t2 k = none := by
  have hall := cacheGet_none_forall cache t1 k hmiss
  unfold cacheGet
  rw [Option.map_eq_none']
  rw [List.find?_eq_none]
  intro e he
  simp only [decide_eq_true_eq]
  rintro ⟨hk, hexp⟩
  exact hall e he ⟨hk, by omega⟩

/-- After a fresh insertion at `t1` following a miss, any read of the same
key strictly inside the 300-second lifetime hits the inserted value. -/
theorem cacheGet_set_hit (cache : TTLCacheSt) (t1 t2 : Nat) (k : CacheKey)
    (v : List Match) (hmiss : cacheGet cache t1 k = none)
    (hwin : t2 < t1 + 300) :
    cacheGet (cacheSet cache t1 k v) t2 k = some v := by
  have hall := cacheGet_none_forall cache t1 k hmiss
  unfold cacheGet cacheSet
  have hroom : ∀ e ∈ (if (cachePurge cache.entries t1).length ≥ 100 then
      (cachePurge cache.entries t1).drop ((cachePurge cache.entries t1).length - 99)
    else cachePurge cache.entries t1),
      (fun e => decide (e.key = k ∧ t2 < e.expire)) e = false := by
    intro e he
    have hp : e ∈ cachePurge cache.entries t1 := by
      by_cases hc : (cachePurge cache.entries t1).length ≥ 100
      · rw [if_pos hc] at he
        exact List.drop_subset _ _ he
      · rw [if_neg hc] at he
        exact he
    unfold cachePurge at hp
    rw [List.mem_filter] at hp
    obtain ⟨hmem, hlive⟩ := hp
    have hkey : e.key ≠ k := by
      intro hk
      exact hall e hmem ⟨hk, by simpa using hlive⟩
    simp [hkey]
  dsimp only
  rw [find?_append_of_none _ _ _ hroom]
  simp [hwin]

/-- The insertion never grows the cache past its 100-entry capacity. -/
theorem cacheSet_card_le (cache : TTLCacheSt) (now : Nat) (k : CacheKey)
    (v : List Match) : (cacheSet cache now k v).entries.length ≤ 100 := by
  unfold cacheSet
  dsimp only
  rw [List.length_append]
  by_cases hc : (cachePurge cache.entries now).length ≥ 100
  · rw [if_pos hc, List.length_drop]
    simp only [List.length_singleton]
    omega
  · rw [if_neg hc]
    simp only [List.length_singleton]
    omega

/-- C5: after a first retrieval at `t1` for a key not already cached, a
second retrieval with the identical `(user_id, query, top_k)` triple at
any `t2` within the entry's 300-second window returns exactly the first
call's result and issues no store query at all; the cache never exceeds
its 100-entry capacity. -/
theorem query_user_expenses_cached (c : Collab) (cache : TTLCacheSt)
    (t1 t2 : Nat) (u q : String) (k : Nat)
    (hmiss : cacheGet cache t1 (u, q, k) = none)
    (ht : t1 ≤ t2) (hwin : t2 < t1 + 300) :
    (query_user_expenses c t2 (query_user_expenses c t1 cache u q k).cache u q k).result
        = (query_user_expenses c t1 cache u q k).result
    ∧ (query_user_expenses c t2 (query_user_expenses c t1 cache u q k).cache u q k).calls = []
    ∧ (cache.entries.length ≤ 100 →
        (query_user_expenses c t1 cache u q k).cache.entries.length ≤ 100) := by
  simp only [query_user_expenses, hmiss]
  cases hcore : query_user_expenses_core c u q k with
  | ok p =>
    obtain ⟨ms, calls⟩ := p
    dsimp only
    rw [cacheGet_set_hit cache t1 t2 (u, q, k) ms hmiss hwin]
    exact ⟨rfl, rfl, fun _ => cacheSet_card_le cache t1 (u, q, k) ms⟩
  | error e =>
    dsimp only
    rw [cacheGet_none_mono cache t1 t2 (u, q, k) hmiss ht]
    exact ⟨rfl, rfl, fun h => h⟩

/-- C5 witness: an empty cache, a store counting one query, and two calls
ten seconds apart. -/
theorem query_user_expenses_cached_witness :
    cacheGet (TTLCacheSt.mk []) 0 ("u1", "food spend", 5) = none
    ∧ (0 : Nat) ≤ 10 ∧ (10 : Nat) < 0 + 300
    ∧ (query_user_expenses
          (Collab.mk (fun _ => []) (fun _ => []) (fun _ => none) true
            (fun _ => HfOutcome.timeout)
            (some (Store.mk (fun _ _ _ => StoreQueryOutcome.ok []) (fun _ => StoreUpsertOutcome.ok))))
          10
          (query_user_expenses
            (Collab.mk (fun _ => []) (fun _ => []) (fun _ => none) true
              (fun _ => HfOutcome.timeout)
              (some (Store.mk (fun _ _ _ => StoreQueryOutcome.ok []) (fun _ => StoreUpsertOutcome.ok))))
            0 (TTLCacheSt.mk []) "u1" "food spend" 5).cache
          "u1" "food spend" 5).calls = [] :=
  ⟨rfl, by decide, by decide,
    (query_user_expenses_cached
      (Collab.mk (fun _ => []) (fun _ => []) (fun _ => none) true
        (fun _ => HfOutcome.timeout)
        (some (Store.mk (fun _ _ _ => StoreQueryOutcome.ok []) (fun _ => StoreUpsertOutcome.ok))))
      (TTLCacheSt.mk []) 0 10 "u1" "food spend" 5 rfl (by decide) (by decide)).2.1⟩

/-- Full behaviour of the retrieval body when extraction succeeds: it
returns a match list with user-scoped store calls; with an available
store it always issues at least one call; and when the store honours the
filter it hands over, every returned match is scoped to the user. -/
theorem core_full_spec (c : Collab) (user_id query : String) (top_k : Nat)
    (fs : FilterSet)
    (hfs : extract_filters_from_query c query user_id = .ok fs) :
    ∃ ms calls, query_user_expenses_core c user_id query top_k = .ok (ms, calls)
      ∧ (∀ call ∈ calls, call.filter.userEq = user_id)
      ∧ ((∀ st qt tk flt ms2, c.store = some st → st.query qt tk flt = .ok ms2 →
            ∀ m ∈ ms2, m.metadata.user_id = some flt.userEq) →
          ∀ m ∈ ms, m.metadata.user_id = some user_id)
      ∧ (c.store ≠ none → calls ≠ []) := by
  simp only [query_user_expenses_core]
  cases hst : c.store with
  | none =>
    refine ⟨[], [], rfl, ?_, ?_, ?_⟩
    · intro call h
      cases h
    · intro _ m h
      cases h
    · intro hns
      exact absurd rfl hns
  | some st =>
    dsimp only
    rw [hfs]
    dsimp only
    cases hq1 : st.query (coreQueryText query fs) top_k (coreFilter user_id fs) with
    | ok ms =>
      refine ⟨ms, _, rfl, ?_, ?_, ?_⟩
      · intro call hcall
        rw [List.mem_singleton] at hcall
        rw [hcall]
        rfl
      · intro hstore m hm
        exact hstore st _ _ _ ms rfl hq1 m hm
      · intro _
        exact List.cons_ne_nil _ _
    | typeError =>
      refine ⟨[], _, rfl, ?_, ?_, ?_⟩
      · intro call hcall
        simp only [List.mem_cons, List.not_mem_nil, or_false] at hcall
        rcases hcall with h | h <;> rw [h] <;> rfl
      · intro _ m hm
        cases hm
      · intro _
        exact List.cons_ne_nil _ _
    | otherError =>
      refine ⟨[], _, rfl, ?_, ?_, ?_⟩
      · intro call hcall
        rw [List.mem_singleton] at hcall
        rw [hcall]
        rfl
      · intro _ m hm
        cases hm
      · intro _
        exact List.cons_ne_nil _ _

/-- Lifting of `core_full_spec` through the cache wrapper when the cache
starts empty (so the call must go to the body). -/
theorem retrieval_full_spec (c : Collab) (now : Nat) (cache : TTLCacheSt)
    (user_id query : String) (top_k : Nat) (fs : FilterSet)
    (hcache : cache.entries = [])
    (hfs : extract_filters_from_query c query user_id = .ok fs) :
    ∃ ms cache2 calls,
      query_user_expenses c now cache user_id query top_k = ⟨.ok ms, cache2, calls⟩
      ∧ (∀ call ∈ calls, call.filter.userEq = user_id)
      ∧ ((∀ st qt tk flt ms2, c.store = some st → st.query qt tk flt = .ok ms2 →
            ∀ m ∈ ms2, m.metadata.user_id = some flt.userEq) →
          ∀ m ∈ ms, m.metadata.user_id = some user_id)
      ∧ (c.store ≠ none → calls ≠ []) := by
  have hget : cacheGet cache now (user_id, query, top_k) = none := by
    unfold cacheGet
    rw [hcache]
    rfl
  simp only [query_user_expenses, hget]
  obtain ⟨ms, calls, hcore, h1, h2, h3⟩ :=
    core_full_spec c user_id query top_k fs hfs
  rw [hcore]
  exact ⟨ms, _, calls, rfl, h1, h2, h3⟩

/-- C1 counterexample: with a well-formed single-user batch and a
non-empty question, a generative backend that answers HTTP 200 with a
whitespace-only `generated_text` makes `query_fingpt` return a *success*
result whose `answer` is the empty string — the claim's "answer … always
non-empty regardless of the generative backend's response" is false on
the code. -/
theorem query_fingpt_empty_answer_on_blank_generation :
    ((query_fingpt
      (Collab.mk (fun _ => []) (fun _ => []) (fun _ => none) true
        (fun _ => HfOutcome.resp 200 "" (JsonShape.listGen "  ")) none)
      0 (TTLCacheSt.mk []) "hello"
      [PyExpense.dict (ExpenseDict.mk (some "u1") (some 5) (some "Food")
        (some "") (some "2024-01-02") none)]).result).answerText = some "" := by
  rfl

/-- C1 (amended): for a non-empty (after stripping) question recognising
at most one date entity, and a non-empty well-formed single-user batch,
`query_fingpt` returns a success result with non-empty `context_used`,
and its `answer` is also non-empty provided the generative client's
returned string is non-empty — whatever the store handle (available or
not, failing or not) and the backend response are; no exception
escapes (the embedding is total). -/
theorem query_fingpt_success_nonempty (c : Collab) (now : Nat)
    (cache : TTLCacheSt) (question : String) (expenses : List PyExpense)
    (v0 : ValidExpense) (vrest : List ValidExpense)
    (hq : pyStrip question ≠ "") (hne : expenses ≠ [])
    (hval : validate expenses = .ok (v0 :: vrest))
    (hu : ∀ v ∈ (v0 :: vrest), v.user_id = v0.user_id)
    (hd : (c.dateEntities (pyLower question)).length ≤ 1)
    (hA : ∀ p, call_fingpt_api c.hfTokenOk c.backend p ≠ "") :
    ∃ r, (query_fingpt c now cache question expenses).result = .ok r
      ∧ r.answer ≠ "" ∧ r.context_used ≠ "" := by
  obtain ⟨w, hup⟩ := upsert_ok_of_single_user c v0 vrest hu
  obtain ⟨fs, hfs, hfsu⟩ := extract_ok_of_few_dates c question v0.user_id hd
  obtain ⟨ms, cache2, calls, hr, hscope⟩ :=
    retrieval_ok_of_extract_ok c now cache v0.user_id question 5 fs hfs
  rw [query_fingpt_eq_orchestrate c now cache question expenses v0 vrest hq hne hval,
    orchestrate_ok c now cache question (v0 :: vrest) v0.user_id w fs ms cache2 calls hup hfs hr]
  exact ⟨_, rfl, chooseAnswer_ne_empty c question v0 vrest _ hA,
    chooseContext_ne_empty ms v0 vrest⟩

/-- C1 witness: a concrete valid run (store unavailable, unconfigured
token, so the local analysis answers). -/
theorem query_fingpt_success_nonempty_witness :
    pyStrip "How much did I spend?" ≠ ""
    ∧ validate [PyExpense.dict (ExpenseDict.mk (some "u1") (some 5) (some "Food")
        (some "") (some "2024-01-02") none)]
      = Except.ok [ValidExpense.mk "u1" 5 "Food" "" "2024-01-02" none]
    ∧ (∃ r, (query_fingpt
        (Collab.mk (fun _ => []) (fun _ => []) (fun _ => none) false
          (fun _ => HfOutcome.timeout) none)
        0 (TTLCacheSt.mk []) "How much did I spend?"
        [PyExpense.dict (ExpenseDict.mk (some "u1") (some 5) (some "Food")
          (some "") (some "2024-01-02") none)]).result = .ok r
      ∧ r.answer ≠ "" ∧ r.context_used ≠ "") :=
  ⟨by decide, rfl,
    query_fingpt_success_nonempty
      (Collab.mk (fun _ => []) (fun _ => []) (fun _ => none) false
        (fun _ => HfOutcome.timeout) none)
      0 (TTLCacheSt.mk []) "How much did I spend?"
      [PyExpense.dict (ExpenseDict.mk (some "u1") (some 5) (some "Food")
        (some "") (some "2024-01-02") none)]
      (ValidExpense.mk "u1" 5 "Food" "" "2024-01-02" none) []
      (by decide) (by decide) rfl
      (by intro v hv; rw [List.mem_singleton] at hv; rw [hv])
      (by decide)
      (fun p => ne_of_eq_of_ne
        (show call_fingpt_api
            (Collab.mk (fun _ => []) (fun _ => []) (fun _ => none) false
              (fun _ => HfOutcome.timeout) none).hfTokenOk
            (Collab.mk (fun _ => []) (fun _ => []) (fun _ => none) false
              (fun _ => HfOutcome.timeout) none).backend p
          = "I apologize, but the AI service is not properly configured. Please contact support." from rfl)
        (by decide))⟩

/-- C3 counterexample: with the store handle unavailable, a mixed-user
batch (`u1` and `u2`) sails through — `upsert_expenses_to_pinecone`
returns *before* the single-user check (`if index is None: return`
precedes it) and the query completes successfully instead of returning an
error result (no write occurs, but only because there is no store). -/
theorem mixed_user_batch_accepted_without_store :
    ((query_fingpt
      (Collab.mk (fun _ => []) (fun _ => []) (fun _ => none) false
        (fun _ => HfOutcome.timeout) none)
      0 (TTLCacheSt.mk []) "hello"
      [PyExpense.dict (ExpenseDict.mk (some "u1") (some 5) (some "Food")
        (some "") (some "2024-01-02") none),
       PyExpense.dict (ExpenseDict.mk (some "u2") (some 7) (some "Travel")
        (some "") (some "2024-01-03") none)]).result).isOkB = true
    ∧ (query_fingpt
      (Collab.mk (fun _ => []) (fun _ => []) (fun _ => none) false
        (fun _ => HfOutcome.timeout) none)
      0 (TTLCacheSt.mk []) "hello"
      [PyExpense.dict (ExpenseDict.mk (some "u1") (some 5) (some "Food")
        (some "") (some "2024-01-02") none),
       PyExpense.dict (ExpenseDict.mk (some "u2") (some 7) (some "Travel")
        (some "") (some "2024-01-03") none)]).upsertCalls = [] := by
  exact ⟨rfl, rfl⟩

/-- C3 (amended): when the store handle *is* available, a well-formed
batch carrying two or more distinct `user_id`s makes `query_fingpt`
abort with the storage error result, with no upsert batch handed to the
store and no retrieval query issued. -/
theorem mixed_user_batch_rejected_with_store (c : Collab) (st : Store)
    (now : Nat) (cache : TTLCacheSt) (question : String)
    (expenses : List PyExpense) (v0 : ValidExpense) (vrest : List ValidExpense)
    (hq : pyStrip question ≠ "") (hne : expenses ≠ [])
    (hval : validate expenses = .ok (v0 :: vrest))
    (hst : c.store = some st)
    (hmix : ((v0 :: vrest).map (fun e => e.user_id)).dedup.length ≠ 1) :
    (query_fingpt c now cache question expenses).result
        = .error "Failed to store expenses: All expenses to upsert must belong to the same user_id."
    ∧ (query_fingpt c now cache question expenses).upsertCalls = []
    ∧ (query_fingpt c now cache question expenses).storeQueries = [] := by
  have hup : upsert_expenses_to_pinecone c (v0 :: vrest)
      = .error "All expenses to upsert must belong to the same user_id." := by
    simp only [upsert_expenses_to_pinecone]
    rw [if_neg (by exact List.cons_ne_nil v0 vrest), hst]
    dsimp only
    rw [if_pos hmix]
  rw [query_fingpt_eq_orchestrate c now cache question expenses v0 vrest hq hne hval]
  simp only [orchestrate, hup]
  refine ⟨?_, ?_, ?_⟩ <;> decide

/-- C3 witness: a mixed two-user batch against an available store aborts
with the storage error, no upsert batch sent, no retrieval issued. -/
theorem mixed_user_batch_rejected_with_store_witness :
    pyStrip "hello" ≠ ""
    ∧ ((["u1", "u2"] : List String).dedup.length ≠ 1)
    ∧ (query_fingpt
        (Collab.mk (fun _ => []) (fun _ => []) (fun _ => none) false
          (fun _ => HfOutcome.timeout)
          (some (Store.mk (fun _ _ _ => StoreQueryOutcome.ok [])
            (fun _ => StoreUpsertOutcome.ok))))
        0 (TTLCacheSt.mk []) "hello"
        [PyExpense.dict (ExpenseDict.mk (some "u1") (some 5) (some "Food")
          (some "") (some "2024-01-02") none),
         PyExpense.dict (ExpenseDict.mk (some "u2") (some 7) (some "Travel")
          (some "") (some "2024-01-03") none)]).result
      = .error "Failed to store expenses: All expenses to upsert must belong to the same user_id." :=
  ⟨by decide, by decide,
    (mixed_user_batch_rejected_with_store
      (Collab.mk (fun _ => []) (fun _ => []) (fun _ => none) false
        (fun _ => HfOutcome.timeout)
        (some (Store.mk (fun _ _ _ => StoreQueryOutcome.ok [])
          (fun _ => StoreUpsertOutcome.ok))))
      (Store.mk (fun _ _ _ => StoreQueryOutcome.ok []) (fun _ => StoreUpsertOutcome.ok))
      0 (TTLCacheSt.mk []) "hello"
      [PyExpense.dict (ExpenseDict.mk (some "u1") (some 5) (some "Food")
        (some "") (some "2024-01-02") none),
       PyExpense.dict (ExpenseDict.mk (some "u2") (some 7) (some "Travel")
        (some "") (some "2024-01-03") none)]
      (ValidExpense.mk "u1" 5 "Food" "" "2024-01-02" none)
      [ValidExpense.mk "u2" 7 "Travel" "" "2024-01-03" none]
      (by decide) (by decide) rfl rfl (by decide)).1⟩

/-- C2 counterexample: a store whose `upsert` raises is *not* fatal — the
exception is swallowed inside `upsert_expenses_to_pinecone` (logged
only), so `query_fingpt` continues, issues a retrieval query against the
same store, and returns a success result instead of aborting. -/
theorem query_fingpt_continues_after_upsert_failure :
    ((query_fingpt
      (Collab.mk (fun _ => []) (fun _ => []) (fun _ => none) false
        (fun _ => HfOutcome.timeout)
        (some (Store.mk (fun _ _ _ => StoreQueryOutcome.ok [])
          (fun _ => StoreUpsertOutcome.otherError))))
      0 (TTLCacheSt.mk []) "hello"
      [PyExpense.dict (ExpenseDict.mk (some "u1") (some 5) (some "Food")
        (some "") (some "2024-01-02") none)]).result).isOkB = true
    ∧ (query_fingpt
      (Collab.mk (fun _ => []) (fun _ => []) (fun _ => none) false
        (fun _ => HfOutcome.timeout)
        (some (Store.mk (fun _ _ _ => StoreQueryOutcome.ok [])
          (fun _ => StoreUpsertOutcome.otherError))))
      0 (TTLCacheSt.mk []) "hello"
      [PyExpense.dict (ExpenseDict.mk (some "u1") (some 5) (some "Food")
        (some "") (some "2024-01-02") none)]).storeQueries.length = 1 := by
  exact ⟨rfl, rfl⟩

/-- C2 (amended): a store-side upsert failure on a well-formed
single-user batch is swallowed — the upsert routine still reports
success to the orchestrator, `query_fingpt` does not abort, and
retrieval *is* attempted (at least one store query is issued) rather
than the query ending with an error result. -/
theorem upsert_failure_swallowed (c : Collab) (st : Store) (now : Nat)
    (cache : TTLCacheSt) (question : String) (expenses : List PyExpense)
    (v0 : ValidExpense) (vrest : List ValidExpense)
    (hq : pyStrip question ≠ "") (hne : expenses ≠ [])
    (hval : validate expenses = .ok (v0 :: vrest))
    (hu : ∀ v ∈ (v0 :: vrest), v.user_id = v0.user_id)
    (hd : (c.dateEntities (pyLower question)).length ≤ 1)
    (hst : c.store = some st)
    (hfail : st.upsert (upsertVectors (v0 :: vrest)) ≠ StoreUpsertOutcome.ok)
    (hcache : cache.entries = []) :
    (∃ w, upsert_expenses_to_pinecone c (v0 :: vrest) = .ok w)
    ∧ ((query_fingpt c now cache question expenses).result).isOkB = true
    ∧ (query_fingpt c now cache question expenses).storeQueries ≠ [] := by
  obtain ⟨w, hup⟩ := upsert_ok_of_single_user c v0 vrest hu
  obtain ⟨fs, hfs, hfsu⟩ := extract_ok_of_few_dates c question v0.user_id hd
  obtain ⟨ms, cache2, calls, hr, hscope, hmscope, hcalls⟩ :=
    retrieval_full_spec c now cache v0.user_id question 5 fs hcache hfs
  rw [query_fingpt_eq_orchestrate c now cache question expenses v0 vrest hq hne hval,
    orchestrate_ok c now cache question (v0 :: vrest) v0.user_id w fs ms cache2 calls hup hfs hr]
  exact ⟨⟨w, hup⟩, rfl, hcalls (by rw [hst]; exact Option.some_ne_none st)⟩

/-- C2 witness: a concrete run against a store whose upsert fails. -/
theorem upsert_failure_swallowed_witness :
    (Store.mk (fun _ _ _ => StoreQueryOutcome.ok [])
        (fun _ => StoreUpsertOutcome.otherError)).upsert
      (upsertVectors [ValidExpense.mk "u1" 5 "Food" "" "2024-01-02" none])
        ≠ StoreUpsertOutcome.ok
    ∧ ((query_fingpt
        (Collab.mk (fun _ => []) (fun _ => []) (fun _ => none) false
          (fun _ => HfOutcome.timeout)
          (some (Store.mk (fun _ _ _ => StoreQueryOutcome.ok [])
            (fun _ => StoreUpsertOutcome.otherError))))
        0 (TTLCacheSt.mk []) "hello"
        [PyExpense.dict (ExpenseDict.mk (some "u1") (some 5) (some "Food")
          (some "") (some "2024-01-02") none)]).result).isOkB = true
    ∧ (query_fingpt
        (Collab.mk (fun _ => []) (fun _ => []) (fun _ => none) false
          (fun _ => HfOutcome.timeout)
          (some (Store.mk (fun _ _ _ => StoreQueryOutcome.ok [])
            (fun _ => StoreUpsertOutcome.otherError))))
        0 (TTLCacheSt.mk []) "hello"
        [PyExpense.dict (ExpenseDict.mk (some "u1") (some 5) (some "Food")
          (some "") (some "2024-01-02") none)]).storeQueries ≠ [] :=
  ⟨by decide,
    (upsert_failure_swallowed
      (Collab.mk (fun _ => []) (fun _ => []) (fun _ => none) false
        (fun _ => HfOutcome.timeout)
        (some (Store.mk (fun _ _ _ => StoreQueryOutcome.ok [])
          (fun _ => StoreUpsertOutcome.otherError))))
      (Store.mk (fun _ _ _ => StoreQueryOutcome.ok [])
        (fun _ => StoreUpsertOutcome.otherError))
      0 (TTLCacheSt.mk []) "hello"
      [PyExpense.dict (ExpenseDict.mk (some "u1") (some 5) (some "Food")
        (some "") (some "2024-01-02") none)]
      (ValidExpense.mk "u1" 5 "Food" "" "2024-01-02" none) []
      (by decide) (by decide) rfl
      (by intro v hv; rw [List.mem_singleton] at hv; rw [hv])
      (by decide) rfl (by decide) rfl).2.1,
    (upsert_failure_swallowed
      (Collab.mk (fun _ => []) (fun _ => []) (fun _ => none) false
        (fun _ => HfOutcome.timeout)
        (some (Store.mk (fun _ _ _ => StoreQueryOutcome.ok [])
          (fun _ => StoreUpsertOutcome.otherError))))
      (Store.mk (fun _ _ _ => StoreQueryOutcome.ok [])
        (fun _ => StoreUpsertOutcome.otherError))
      0 (TTLCacheSt.mk []) "hello"
      [PyExpense.dict (ExpenseDict.mk (some "u1") (some 5) (some "Food")
        (some "") (some "2024-01-02") none)]
      (ValidExpense.mk "u1" 5 "Food" "" "2024-01-02" none) []
      (by decide) (by decide) rfl
      (by intro v hv; rw [List.mem_singleton] at hv; rw [hv])
      (by decide) rfl (by decide) rfl).2.2⟩

/-- C6: when the generative endpoint answers HTTP 401 (any body), the
client returns — without raising — the authentication-issue message, and
the orchestrator discards it and substitutes the local analysis of the
same question and batch as the answer of its success result. -/
theorem auth_error_triggers_local_fallback (c : Collab) (now : Nat)
    (cache : TTLCacheSt) (question : String) (expenses : List PyExpense)
    (v0 : ValidExpense) (vrest : List ValidExpense)
    (btext : String) (bshape : JsonShape)
    (hq : pyStrip question ≠ "") (hne : expenses ≠ [])
    (hval : validate expenses = .ok (v0 :: vrest))
    (hu : ∀ v ∈ (v0 :: vrest), v.user_id = v0.user_id)
    (hd : (c.dateEntities (pyLower question)).length ≤ 1)
    (hTok : c.hfTokenOk = true)
    (hb : c.backend = fun _ => HfOutcome.resp 401 btext bshape) :
    (∀ p, containsSub (pyLower (call_fingpt_api c.hfTokenOk c.backend p))
        "authentication issue" = true)
    ∧ ∃ r, (query_fingpt c now cache question expenses).result = .ok r
        ∧ r.answer = local_expense_analysis question (v0 :: vrest) := by
  have hcall : ∀ p, call_fingpt_api c.hfTokenOk c.backend p
      = "I apologize, but there's an authentication issue with the AI service. Please check the API configuration." := by
    intro p
    rw [hTok, hb]
    rfl
  refine ⟨fun p => by rw [hcall p]; decide, ?_⟩
  obtain ⟨w, hup⟩ := upsert_ok_of_single_user c v0 vrest hu
  obtain ⟨fs, hfs, hfsu⟩ := extract_ok_of_few_dates c question v0.user_id hd
  obtain ⟨ms, cache2, calls, hr, hscope⟩ :=
    retrieval_ok_of_extract_ok c now cache v0.user_id question 5 fs hfs
  rw [query_fingpt_eq_orchestrate c now cache question expenses v0 vrest hq hne hval,
    orchestrate_ok c now cache question (v0 :: vrest) v0.user_id w fs ms cache2 calls hup hfs hr]
  refine ⟨_, rfl, ?_⟩
  show chooseAnswer c question (v0 :: vrest) (chooseContext ms (v0 :: vrest))
      = local_expense_analysis question (v0 :: vrest)
  simp only [chooseAnswer, hcall]
  rw [if_pos (by decide)]

/-- C6 witness: a concrete 401 response is substituted by the local
analysis. -/
theorem auth_error_triggers_local_fallback_witness :
    (Collab.mk (fun _ => []) (fun _ => []) (fun _ => none) true
        (fun _ => HfOutcome.resp 401 "Unauthorized" JsonShape.invalid)
        none).hfTokenOk = true
    ∧ (∃ r, (query_fingpt
        (Collab.mk (fun _ => []) (fun _ => []) (fun _ => none) true
          (fun _ => HfOutcome.resp 401 "Unauthorized" JsonShape.invalid) none)
        0 (TTLCacheSt.mk []) "How much did I spend?"
        [PyExpense.dict (ExpenseDict.mk (some "u1") (some 5) (some "Food")
          (some "") (some "2024-01-02") none)]).result = .ok r
      ∧ r.answer = local_expense_analysis "How much did I spend?"
          [ValidExpense.mk "u1" 5 "Food" "" "2024-01-02" none]) :=
  ⟨rfl,
    (auth_error_triggers_local_fallback
      (Collab.mk (fun _ => []) (fun _ => []) (fun _ => none) true
        (fun _ => HfOutcome.resp 401 "Unauthorized" JsonShape.invalid) none)
      0 (TTLCacheSt.mk []) "How much did I spend?"
      [PyExpense.dict (ExpenseDict.mk (some "u1") (some 5) (some "Food")
        (some "") (some "2024-01-02") none)]
      (ValidExpense.mk "u1" 5 "Food" "" "2024-01-02" none) []
      "Unauthorized" JsonShape.invalid
      (by decide) (by decide) rfl
      (by intro v hv; rw [List.mem_singleton] at hv; rw [hv])
      (by decide) rfl rfl).2⟩

/-- C10: the orchestrator scopes the whole query to `expenses[0]`'s
`user_id`: the filter set of a success result carries exactly that
`user_id`, every filter expression handed to the store requires an exact
match on it, and — provided the store honours its filter — every
retrieved match belongs to that user (shown from an initially empty
cache, where retrieval must consult the store). -/
theorem retrieval_user_scoped (c : Collab) (now : Nat) (cache : TTLCacheSt)
    (question : String) (expenses : List PyExpense)
    (v0 : ValidExpense) (vrest : List ValidExpense)
    (hq : pyStrip question ≠ "") (hne : expenses ≠ [])
    (hval : validate expenses = .ok (v0 :: vrest))
    (hu : ∀ v ∈ (v0 :: vrest), v.user_id = v0.user_id)
    (hd : (c.dateEntities (pyLower question)).length ≤ 1)
    (hcache : cache.entries = [])
    (hstore : ∀ st qt tk flt ms2, c.store = some st →
        st.query qt tk flt = .ok ms2 →
        ∀ m ∈ ms2, m.metadata.user_id = some flt.userEq) :
    (∀ call ∈ (query_fingpt c now cache question expenses).storeQueries,
        call.filter.userEq = v0.user_id)
    ∧ (∀ r, (query_fingpt c now cache question expenses).result = .ok r →
        r.metadata.user_id = v0.user_id)
    ∧ (∀ m ∈ (query_fingpt c now cache question expenses).retrieved,
        m.metadata.user_id = some v0.user_id) := by
  obtain ⟨w, hup⟩ := upsert_ok_of_single_user c v0 vrest hu
  obtain ⟨fs, hfs, hfsu⟩ := extract_ok_of_few_dates c question v0.user_id hd
  obtain ⟨ms, cache2, calls, hr, hcallscope, hmscope, hnon⟩ :=
    retrieval_full_spec c now cache v0.user_id question 5 fs hcache hfs
  rw [query_fingpt_eq_orchestrate c now cache question expenses v0 vrest hq hne hval,
    orchestrate_ok c now cache question (v0 :: vrest) v0.user_id w fs ms cache2 calls hup hfs hr]
  refine ⟨hcallscope, ?_, hmscope hstore⟩
  intro r hr2
  injection hr2 with h
  rw [← h]
  exact hfsu

/-- C10 witness: an empty cache and a store that honours its filter
(returning no matches). -/
theorem retrieval_user_scoped_witness :
    (TTLCacheSt.mk ([] : List CacheEntry)).entries = []
    ∧ (∀ call ∈ (query_fingpt
        (Collab.mk (fun _ => []) (fun _ => []) (fun _ => none) false
          (fun _ => HfOutcome.timeout)
          (some (Store.mk (fun _ _ _ => StoreQueryOutcome.ok [])
            (fun _ => StoreUpsertOutcome.ok))))
        0 (TTLCacheSt.mk []) "How much did I spend?"
        [PyExpense.dict (ExpenseDict.mk (some "u1") (some 5) (some "Food")
          (some "") (some "2024-01-02") none)]).storeQueries,
        call.filter.userEq = (ValidExpense.mk "u1" 5 "Food" "" "2024-01-02" none).user_id) :=
  ⟨rfl,
    (retrieval_user_scoped
      (Collab.mk (fun _ => []) (fun _ => []) (fun _ => none) false
        (fun _ => HfOutcome.timeout)
        (some (Store.mk (fun _ _ _ => StoreQueryOutcome.ok [])
          (fun _ => StoreUpsertOutcome.ok))))
      0 (TTLCacheSt.mk []) "How much did I spend?"
      [PyExpense.dict (ExpenseDict.mk (some "u1") (some 5) (some "Food")
        (some "") (some "2024-01-02") none)]
      (ValidExpense.mk "u1" 5 "Food" "" "2024-01-02" none) []
      (by decide) (by decide) rfl
      (by intro v hv; rw [List.mem_singleton] at hv; rw [hv])
      (by decide) rfl
      (by intro st qt tk flt ms2 hst hq2 m hm
          cases hst
          cases hq2
          cases hm)).1⟩
